import Mathlib

/-!
Shallow embedding of the two scripts of the Palliative_Analysis repository:
`build_nvivo_aggregate.py` (the aggregator) and `regenerate_valid_docx.py`
(the converter).  Text is embedded as `List Char`, file bytes as `List Nat`
(each < 256), and the file system each script touches as an explicit record.
Definitions follow the Python source line by line; theorems at the end settle
the specification claims.
-/

/-! ## Python string primitives -/

/-- Characters Python's `str.strip()` / `str.rstrip()` (no argument) remove:
whitespace per `str.isspace()` (ASCII whitespace, the C1 separators, NEL,
NBSP and the Unicode space separators). -/
def isPySpace (c : Char) : Bool :=
  c ∈ [' ', '\t', '\n', '\r', '\x0b', '\x0c',
       '\x1c', '\x1d', '\x1e', '\x1f', '\x85', '\xa0',
       '\u1680', '\u2000', '\u2001', '\u2002', '\u2003', '\u2004', '\u2005',
       '\u2006', '\u2007', '\u2008', '\u2009', '\u200a',
       '\u2028', '\u2029', '\u202f', '\u205f', '\u3000']

/-- Python `s.rstrip(chars)`: drop from the right every trailing character
belonging to `chars`. -/
def pyRstripChars (s : List Char) (chars : List Char) : List Char :=
  (s.reverse.dropWhile (fun c => chars.contains c)).reverse

/-- Python `s.rstrip()` with no argument: drop trailing whitespace. -/
def pyRstripWs (s : List Char) : List Char :=
  (s.reverse.dropWhile isPySpace).reverse

/-- Python `s.strip()` with no argument: drop leading and trailing whitespace. -/
def pyStripWs (s : List Char) : List Char :=
  (pyRstripWs s).dropWhile isPySpace

/-- Line-boundary characters of Python `str.splitlines()` (besides the
two-character boundary `"\r\n"`, which is handled separately). -/
def isLineBreak (c : Char) : Bool :=
  c ∈ ['\n', '\r', '\x0b', '\x0c', '\x1c', '\x1d', '\x1e', '\x85',
       '\u2028', '\u2029']

/-- Worker for `pySplitlines`: `acc` holds the current line reversed.
A line ends at every boundary character, `"\r\n"` counting as one boundary;
a boundary at the very end of the input does not open a further empty line. -/
def splitlinesGo : List Char → List Char → List (List Char)
  | [], acc => [acc.reverse]
  | '\r' :: '\n' :: rest2, acc =>
    acc.reverse :: (if rest2.isEmpty then [] else splitlinesGo rest2 [])
  | c :: rest, acc =>
    if isLineBreak c then
      acc.reverse :: (if rest.isEmpty then [] else splitlinesGo rest [])
    else
      splitlinesGo rest (c :: acc)

/-- Python `s.splitlines()`. -/
def pySplitlines (s : List Char) : List (List Char) :=
  match s with
  | [] => []
  | c :: rest => splitlinesGo (c :: rest) []

/-- Python `sub in s` specialised to the bold-marker substring `"**"`. -/
def hasBoldMarker : List Char → Bool
  | '*' :: '*' :: _ => true
  | _ :: rest => hasBoldMarker rest
  | [] => false

/-- Python `s.replace('**', '')`: remove the left-most occurrence of `"**"`
and continue after it. -/
def stripBoldMarkers : List Char → List Char
  | '*' :: '*' :: rest => stripBoldMarkers rest
  | c :: rest => c :: stripBoldMarkers rest
  | [] => []

/-- Python `s.split(sep)` for a one-character separator `sep`. -/
def splitCharGo (sep : Char) : List Char → List Char → List (List Char)
  | [], acc => [acc.reverse]
  | c :: rest, acc =>
    if c = sep then acc.reverse :: splitCharGo sep rest []
    else splitCharGo sep rest (c :: acc)

/-- Python `s.split(sep)` for a one-character separator. -/
def pySplitChar (sep : Char) (s : List Char) : List (List Char) :=
  splitCharGo sep s []

/-- First codepoints of the runs of ten consecutive Unicode decimal digits
(category Nd, digit values 0-9 in order): the exact set CPython's regex
`\d` matches and `int()` accepts. -/
def ndDigitStarts : List Nat :=
  [48, 1632, 1776, 1984, 2406, 2534, 2662, 2790, 2918, 3046, 3174, 3302,
   3430, 3558, 3664, 3792, 3872, 4160, 4240, 6112, 6160, 6470, 6608, 6784,
   6800, 6992, 7088, 7232, 7248, 42528, 43216, 43264, 43472, 43504, 43600,
   44016, 65296, 66720, 68912, 69734, 69872, 69942, 70096, 70384, 70736,
   70864, 71248, 71360, 71472, 71904, 72016, 72784, 73040, 73120, 92768,
   92864, 93008, 120782, 120792, 120802, 120812, 120822, 123200, 123632,
   125264, 130032]

/-- Python regex `\d` on a `str` pattern: any Unicode decimal digit
(category Nd), not only ASCII `0-9`. -/
def isNdDigit (c : Char) : Bool :=
  ndDigitStarts.any (fun s => s ≤ c.toNat && c.toNat < s + 10)

/-- Decimal value of a Unicode decimal digit (its offset in its run of
ten); only used on characters accepted by `isNdDigit`. -/
def ndDigitVal (c : Char) : Nat :=
  c.toNat - ((ndDigitStarts.find? (fun s => s ≤ c.toNat && c.toNat < s + 10)).getD 0)

/-- Python `int(s)` on a string of Unicode decimal digits (the only use
site feeds it the three `\d` digits captured by the transcript regex). -/
def strToNat (s : List Char) : Nat :=
  s.foldl (fun n c => n * 10 + ndDigitVal c) 0

/-- Universal-newline translation performed by `Path.read_text` in text mode:
`"\r\n"` and a lone `"\r"` both become `"\n"`. -/
def translateNL : List Char → List Char
  | [] => []
  | '\r' :: '\n' :: rest => '\n' :: translateNL rest
  | '\r' :: rest => '\n' :: translateNL rest
  | c :: rest => c :: translateNL rest


/-! ## UTF-8 decoding with the `replace` error handler

Models `bytes.decode('utf-8', errors='replace')` as used by
`Path.read_text(encoding='utf-8', errors='replace')` in the converter:
invalid sequences are replaced by U+FFFD following CPython's
maximal-subpart substitution. The returned flag records whether any
replacement happened, i.e. whether the bytes were *not* valid UTF-8. -/

/-- The Unicode replacement character U+FFFD. -/
def replChar : Char := Char.ofNat 0xFFFD

/-- A UTF-8 continuation byte `0x80 - 0xBF`. -/
def contByte (b : Nat) : Bool := 0x80 ≤ b && b ≤ 0xBF

/-- Admissible first continuation byte of a three-byte sequence with lead
byte `b` (excludes overlong forms and surrogates). -/
def cont1ok3 (b c : Nat) : Bool :=
  if b = 0xE0 then 0xA0 ≤ c && c ≤ 0xBF
  else if b = 0xED then 0x80 ≤ c && c ≤ 0x9F
  else contByte c

/-- Admissible first continuation byte of a four-byte sequence with lead
byte `b` (excludes overlong forms and codepoints above U+10FFFF). -/
def cont1ok4 (b c : Nat) : Bool :=
  if b = 0xF0 then 0x90 ≤ c && c ≤ 0xBF
  else if b = 0xF4 then 0x80 ≤ c && c ≤ 0x8F
  else contByte c

/-- UTF-8 decoding with replacement; the `Bool` is true iff a replacement
occurred (so the input was not valid UTF-8). -/
def utf8DecodeEx : List Nat → List Char × Bool
  | [] => ([], false)
  | b :: rest =>
    if b ≤ 0x7F then
      let r := utf8DecodeEx rest
      (Char.ofNat b :: r.1, r.2)
    else if 0xC2 ≤ b && b ≤ 0xDF then
      match rest with
      | [] => ([replChar], true)
      | c1 :: rest1 =>
        if contByte c1 then
          let r := utf8DecodeEx rest1
          (Char.ofNat ((b - 0xC0) * 64 + (c1 - 0x80)) :: r.1, r.2)
        else
          let r := utf8DecodeEx (c1 :: rest1)
          (replChar :: r.1, true)
    else if 0xE0 ≤ b && b ≤ 0xEF then
      match rest with
      | [] => ([replChar], true)
      | c1 :: rest1 =>
        if cont1ok3 b c1 then
          match rest1 with
          | [] => ([replChar], true)
          | c2 :: rest2 =>
            if contByte c2 then
              let r := utf8DecodeEx rest2
              (Char.ofNat ((b - 0xE0) * 4096 + (c1 - 0x80) * 64 + (c2 - 0x80)) :: r.1, r.2)
            else
              let r := utf8DecodeEx (c2 :: rest2)
              (replChar :: r.1, true)
        else
          let r := utf8DecodeEx (c1 :: rest1)
          (replChar :: r.1, true)
    else if 0xF0 ≤ b && b ≤ 0xF4 then
      match rest with
      | [] => ([replChar], true)
      | c1 :: rest1 =>
        if cont1ok4 b c1 then
          match rest1 with
          | [] => ([replChar], true)
          | c2 :: rest2 =>
            if contByte c2 then
              match rest2 with
              | [] => ([replChar], true)
              | c3 :: rest3 =>
                if contByte c3 then
                  let r := utf8DecodeEx rest3
                  (Char.ofNat ((b - 0xF0) * 262144 + (c1 - 0x80) * 4096 +
                    (c2 - 0x80) * 64 + (c3 - 0x80)) :: r.1, r.2)
                else
                  let r := utf8DecodeEx (c3 :: rest3)
                  (replChar :: r.1, true)
            else
              let r := utf8DecodeEx (c2 :: rest2)
              (replChar :: r.1, true)
        else
          let r := utf8DecodeEx (c1 :: rest1)
          (replChar :: r.1, true)
    else
      let r := utf8DecodeEx rest
      (replChar :: r.1, true)

/-- Python `bytes.decode('utf-8', errors='replace')`. -/
def utf8DecodeReplace (bs : List Nat) : List Char := (utf8DecodeEx bs).1

/-- Whether a byte sequence is valid UTF-8 (decoding it strictly would
succeed, i.e. replacement decoding replaces nothing). -/
def validUtf8 (bs : List Nat) : Bool := !(utf8DecodeEx bs).2


/-! ## Converter (`regenerate_valid_docx.py`) -/

deriving instance DecidableEq for Except

/-- One paragraph produced by `convert_plaintext_to_docx`: its visible text
and whether its single run was marked bold (`run.bold = True`). -/
structure DocPara where
  paraText : List Char
  paraBold : Bool
deriving DecidableEq

/-- State of the two file-system entries a single conversion touches:
the source `.docx` path and its `.orig.txt` backup sidecar.
`srcReadable = false` models a source whose bytes cannot be read
(an `OSError` on open or read); `srcBytes` are the raw bytes on disk;
`backupFile` is `none` while no backup sidecar exists. -/
structure ConvFS where
  srcReadable : Bool
  srcBytes : List Nat
  backupFile : Option (List Char)
deriving DecidableEq

/-- Python exceptions the converter can meet. -/
inductive PyErr where
  | osError
  | unicodeDecodeError
deriving DecidableEq

/-- What one call of `convert_plaintext_to_docx` reports:
`skippedValid` is the `SKIP (already valid)` / `return False` path,
`decodeErrorSkip` the `ERROR: Cannot read as text` / `return False` path,
`converted` the `Converted ->` / `return True` path. -/
inductive ConvOutcome where
  | skippedValid
  | decodeErrorSkip
  | converted
deriving DecidableEq

/-- The boolean value `convert_plaintext_to_docx` returns for each outcome. -/
def ConvOutcome.toReturnBool : ConvOutcome → Bool
  | .converted => true
  | _ => false

/-- Source lines 29-35, `is_valid_docx`: read the first two bytes and compare
with the ZIP magic `b'PK'` (`[0x50, 0x4B]`); an `OSError` yields `False`. -/
def is_valid_docx (fs : ConvFS) : Bool :=
  if fs.srcReadable then fs.srcBytes.take 2 == [0x50, 0x4B] else false

/-- Source line 54, `src.read_text(encoding='utf-8', errors='replace')`:
an unreadable file raises `OSError`; otherwise the bytes are decoded with
the `replace` handler (which never raises) and universal-newline
translation is applied. -/
def pyReadTextReplace (fs : ConvFS) : Except PyErr (List Char) :=
  if fs.srcReadable then .ok (translateNL (utf8DecodeReplace fs.srcBytes))
  else .error .osError

/-- Source lines 74-84, the body of the per-line loop: `rstrip('\r')`; a
line that is whitespace-only becomes an empty paragraph; otherwise the
`'**'` markers are removed and the run is bold iff a marker occurred. -/
def convertLine (raw_line : List Char) : DocPara :=
  let line := pyRstripChars raw_line ['\r']
  if (pyStripWs line).isEmpty then ⟨[], false⟩
  else ⟨stripBoldMarkers line, hasBoldMarker line⟩

/-- Serialisation `doc.save(str(src))` of the python-docx library, treated
as an opaque external capability: some bytes starting with the ZIP magic
`PK` that determine the paragraph list. -/
def renderDocx (paras : List DocPara) : List Nat :=
  0x50 :: 0x4B ::
    (paras.map (fun p =>
      (if p.paraBold then 1 else 0) :: p.paraText.map Char.toNat ++ [10])).flatten

/-- Source lines 48-91, `convert_plaintext_to_docx`: skip when the file is
already a valid docx and `force` is unset; read the text (only a
`UnicodeDecodeError` is caught and reported, every other exception
propagates); write the backup sidecar only when none exists yet; rebuild
the document from the converted lines and save it over the source path. -/
def convert_plaintext_to_docx (force : Bool) (fs : ConvFS) :
    Except PyErr (ConvFS × ConvOutcome) :=
  if is_valid_docx fs && !force then .ok (fs, .skippedValid)
  else
    match pyReadTextReplace fs with
    | .error PyErr.unicodeDecodeError => .ok (fs, .decodeErrorSkip)
    | .error e => .error e
    | .ok text =>
      let fs1 := if fs.backupFile.isSome then fs
                 else { fs with backupFile := some text }
      let paras := (pySplitlines text).map convertLine
      .ok ({ fs1 with srcReadable := true, srcBytes := renderDocx paras },
           .converted)

example :
    convert_plaintext_to_docx false ⟨true, [0x50, 0x4B, 9], none⟩ =
      .ok (⟨true, [0x50, 0x4B, 9], none⟩, .skippedValid) := by decide
example :
    (convert_plaintext_to_docx false ⟨true, [104, 105], none⟩).map Prod.snd =
      .ok .converted := by decide
example :
    (convert_plaintext_to_docx false ⟨true, [255], none⟩).map Prod.snd =
      .ok .converted := by decide
example :
    convert_plaintext_to_docx false ⟨false, [], none⟩ = .error .osError := by
  decide
example :
    ("**Question 1**\n\nAn answer.".data |> pySplitlines |>.map convertLine) =
      [⟨"Question 1".data, true⟩, ⟨[], false⟩, ⟨"An answer.".data, false⟩] := by
  decide

/-! ## Aggregator (`build_nvivo_aggregate.py`) -/

/-- A text run of a python-docx paragraph: its text and tri-state bold flag
(`r.bold` is `None`, `False` or `True`; the source evaluates
`r.bold or False`). -/
structure DocxRun where
  runText : List Char
  runBold : Option Bool
deriving DecidableEq

/-- A python-docx paragraph as the aggregator reads it: its list of runs.
`para.text` is the concatenation of the run texts. -/
structure DocxParagraph where
  runs : List DocxRun
deriving DecidableEq

/-- python-docx `para.text`: concatenation of the texts of the runs. -/
def docxParaText (p : DocxParagraph) : List Char :=
  (p.runs.map DocxRun.runText).flatten

/-- Source lines 63-72, the paragraph loop of `extract_text_from_docx`:
`text = para.text.rstrip()`; an empty result gives a blank line; otherwise
the line is wrapped in `'**'` when the runs are non-empty and every run
with non-whitespace text has a true bold flag. -/
def extractLine (p : DocxParagraph) : List Char :=
  let text := pyRstripWs (docxParaText p)
  if text.isEmpty then []
  else if !p.runs.isEmpty
      && p.runs.all (fun r => (pyStripWs r.runText).isEmpty || r.runBold.getD false)
    then '*' :: '*' :: (text ++ ['*', '*'])
  else text

/-- Failures of the aggregator: the `return 1` on an empty discovery and the
`RuntimeError("python-docx not available; cannot extract text")`. -/
inductive AggErr where
  | noTranscripts
  | docxUnavailable
deriving DecidableEq

/-- Source lines 58-73, `extract_text_from_docx`: raises when the optional
`docx` import failed (`Document is None`), otherwise joins the extracted
lines with newlines. -/
def extract_text_from_docx (docAvailable : Bool) (paras : List DocxParagraph) :
    Except AggErr (List Char) :=
  if docAvailable then .ok (List.intercalate ['\n'] (paras.map extractLine))
  else .error .docxUnavailable

/-- The file system the aggregator sees: the directory listing, for every
path the state of a possible backup sidecar (`none` missing,
`some (.error ())` present but unreadable or undecodable,
`some (.ok c)` readable with content `c`), the paragraphs python-docx
would extract from each file, and whether the optional `docx` dependency
imported successfully. -/
structure AggFS where
  listing : List (List Char)
  backupFiles : List Char → Option (Except Unit (List Char))
  docxFiles : List Char → List DocxParagraph
  docAvailable : Bool

/-- The glob pattern `transcript_PATIENT_*.docx`: the name starts with
`transcript_PATIENT_`, ends with `.docx`, and `*` may match any (possibly
empty) character sequence. -/
def globMatch (name : List Char) : Bool :=
  "transcript_PATIENT_".data.isPrefixOf name
    && ".docx".data.isSuffixOf name
    && decide (24 ≤ name.length)

/-- Source line 33: `re.search(r"transcript_(PATIENT_\d{3})\.docx$", name)`.
Because the pattern is anchored at the end and has fixed width 27, a match
exists exactly when the final 27 characters have the shape
`transcript_PATIENT_` + three decimal digits (`\d` is any Unicode
category-Nd digit) + `.docx`; the captured group is `PATIENT_` followed by
those digits. -/
def regexExtract (name : List Char) : Option (List Char) :=
  let n := name.length
  if 27 ≤ n then
    let tail27 := name.drop (n - 27)
    let digits := (tail27.drop 19).take 3
    if tail27.take 19 == "transcript_PATIENT_".data
        && digits.all isNdDigit
        && tail27.drop 22 == ".docx".data
    then some ("PATIENT_".data ++ digits)
    else none
  else none

/-- Source line 45's sort key `int(t[0].split('_')[1])`: the numeric value
of the digits after the underscore of the identifier. -/
def pidNum (pid : List Char) : Nat :=
  strToNat ((pySplitChar '_' pid).getD 1 [])

/-- Discovery before sorting (source lines 37-43): glob, then keep the
files whose name the identifier regex matches, paired as
`(identifier, path)`. -/
def rawTranscriptFiles (listing : List (List Char)) : List (List Char × List Char) :=
  (listing.filter globMatch).filterMap
    (fun n => (regexExtract n).map (fun pid => (pid, n)))

/-- The comparison underlying `files.sort(key=lambda t: int(t[0].split('_')[1]))`. -/
def transcriptLE (a b : List Char × List Char) : Prop :=
  pidNum a.1 ≤ pidNum b.1

instance : DecidableRel transcriptLE :=
  fun a b => inferInstanceAs (Decidable (pidNum a.1 ≤ pidNum b.1))

instance : IsTotal (List Char × List Char) transcriptLE :=
  ⟨fun a b => Nat.le_total (pidNum a.1) (pidNum b.1)⟩

instance : IsTrans (List Char × List Char) transcriptLE :=
  ⟨fun _ _ _ => Nat.le_trans⟩

/-- Source lines 36-46, `iter_transcript_paths`: discovery followed by the
stable sort on the numeric portion of the identifier. -/
def iter_transcript_paths (listing : List (List Char)) : List (List Char × List Char) :=
  List.insertionSort transcriptLE (rawTranscriptFiles listing)

/-- Source lines 49-55, `read_from_backup`: `None` when the sidecar does not
exist, `None` when reading it fails, its text otherwise. -/
def read_from_backup (b : Option (Except Unit (List Char))) : Option (List Char) :=
  match b with
  | none => none
  | some (Except.error _) => none
  | some (Except.ok s) => some s

/-- Source line 84, `path.with_suffix(path.suffix + ".orig.txt")`: for the
discovered names (which end in `.docx`) this appends `.orig.txt`. -/
def withOrigSuffix (name : List Char) : List Char :=
  name ++ ".orig.txt".data

/-- Source line 91: the delimiter line `====TRANSCRIPT: <identifier>====`. -/
def header_line (pid : List Char) : List Char :=
  "====TRANSCRIPT: ".data ++ pid ++ "====".data

/-- Source lines 91-93, header normalisation: when the delimiter line is not
among the first three lines of the content, rebuild the content as the
f-string `"<header>\n\n<content.strip()>\n"`; otherwise keep it as is. -/
def normalize_header (pid content : List Char) : List Char :=
  if ((pySplitlines content).take 3).contains (header_line pid)
  then content
  else header_line pid ++ '\n' :: '\n' :: (pyStripWs content ++ ['\n'])

/-- Source line 94: the entry appended for one transcript,
`content.strip() + "\n"` after header normalisation. -/
def entryOf (pid content : List Char) : List Char :=
  pyStripWs (normalize_header pid content) ++ ['\n']

/-- Source lines 84-88: prefer the backup sidecar, fall back to docx
extraction. -/
def acquireContent (fs : AggFS) (t : List Char × List Char) :
    Except AggErr (List Char) :=
  match read_from_backup (fs.backupFiles (withOrigSuffix t.2)) with
  | some c => .ok c
  | none => extract_text_from_docx fs.docAvailable (fs.docxFiles t.2)

/-- One iteration of the loop in `build_aggregate` (source lines 83-94):
acquire the content and produce `(identifier, entry)`; the `RuntimeError`
of the extraction fallback propagates. -/
def processTranscript (fs : AggFS) (t : List Char × List Char) :
    Except AggErr (List Char × List Char) :=
  match acquireContent fs t with
  | .ok c => .ok (t.1, entryOf t.1 c)
  | .error e => .error e

/-- The loop of `build_aggregate` over the discovered transcripts; an
uncaught exception aborts the remaining iterations. -/
def buildEntries (fs : AggFS) :
    List (List Char × List Char) → Except AggErr (List (List Char × List Char))
  | [] => .ok []
  | t :: rest =>
    match processTranscript fs t with
    | .error e => .error e
    | .ok y =>
      match buildEntries fs rest with
      | .error e => .error e
      | .ok ys => .ok (y :: ys)

/-- Source lines 76-94 of `build_aggregate`: empty discovery is the reported
failure `return 1`; otherwise the per-transcript entries in discovery
order, each paired with its identifier. -/
def build_aggregate (fs : AggFS) : Except AggErr (List (List Char × List Char)) :=
  if (iter_transcript_paths fs.listing).isEmpty then .error .noTranscripts
  else buildEntries fs (iter_transcript_paths fs.listing)

/-- Source lines 96-102: the footer block, with the formatted generation
timestamp passed in as `now`. -/
def footerText (pids : List (List Char)) (now : List Char) : List Char :=
  "---\n\nEND OF ALL TRANSCRIPTS\n\nGenerated: ".data ++ now
  ++ "\nTotal Patients: ".data ++ Nat.toDigits 10 pids.length
  ++ " (".data ++ List.intercalate ", ".data pids ++ ")\n".data
  ++ "Source: palliative_data.csv\nFormat: Appendix I questionnaire structure with Esther transcript style\n".data

/-- Source line 104: `aggregate_text = "\n".join(entries) + "\n" + footer`,
the full text written to `AllTranscripts_NVivo.txt`. -/
def aggregate_output (fs : AggFS) (now : List Char) : Except AggErr (List Char) :=
  (build_aggregate fs).map (fun entries =>
    List.intercalate ['\n'] (entries.map Prod.snd)
      ++ '\n' :: footerText (entries.map Prod.fst) now)

example : regexExtract "transcript_PATIENT_007.docx".data = some "PATIENT_007".data := by decide
example : regexExtract "transcript_PATIENT_0007.docx".data = none := by decide
example :
    regexExtract "transcript_PATIENT_١٢٣.docx".data =
      some "PATIENT_١٢٣".data := by decide
example : pidNum "PATIENT_١٢٣".data = 123 := by decide
example : globMatch "transcript_PATIENT_0007.docx".data = true := by decide
example : pidNum "PATIENT_012".data = 12 := by decide
example :
    iter_transcript_paths
      ["transcript_PATIENT_010.docx".data, "transcript_PATIENT_002.docx".data] =
    [("PATIENT_002".data, "transcript_PATIENT_002.docx".data),
     ("PATIENT_010".data, "transcript_PATIENT_010.docx".data)] := by decide
example :
    normalize_header "PATIENT_001".data "Hello".data =
      "====TRANSCRIPT: PATIENT_001====\n\nHello\n".data := by decide
example :
    normalize_header "PATIENT_001".data "====TRANSCRIPT: PATIENT_001====\n\nHello\n".data =
      "====TRANSCRIPT: PATIENT_001====\n\nHello\n".data := by decide
example :
    extractLine ⟨[⟨"Hi".data, some true⟩, ⟨" ".data, none⟩]⟩ = "**Hi**".data := by decide
example :
    extractLine ⟨[⟨"Hi".data, some true⟩, ⟨"no".data, none⟩]⟩ = "Hino".data := by decide
example : extractLine ⟨[]⟩ = [] := by decide

/-! ## Claims about the converter -/

/-- C2: every input line the converter processes yields one paragraph: a
blank (whitespace-only, per `if not line.strip()`) line yields an empty
paragraph, and a non-blank line yields a paragraph whose text is the line
with every occurrence of `'**'` removed, bold iff `'**'` occurred in the
line; and the input lines `["**Question 1**", "", "An answer."]` yield
exactly the three paragraphs `("Question 1", bold)`, `("", not bold)`,
`("An answer.", not bold)`. -/
theorem C2_line_transform :
    (∀ raw_line : List Char,
        convertLine raw_line =
          if pyStripWs (pyRstripChars raw_line ['\r']) = [] then ⟨[], false⟩
          else ⟨stripBoldMarkers (pyRstripChars raw_line ['\r']),
                hasBoldMarker (pyRstripChars raw_line ['\r'])⟩)
    ∧ (pySplitlines "**Question 1**\n\nAn answer.".data).map convertLine =
        [⟨"Question 1".data, true⟩, ⟨[], false⟩, ⟨"An answer.".data, false⟩] := by
  constructor
  · intro raw
    unfold convertLine
    by_cases h : pyStripWs (pyRstripChars raw ['\r']) = [] <;>
      simp [h, List.isEmpty_iff]
  · decide

/-- C5: the backup sidecar write is guarded by `if not backup.exists()`, so
once a backup exists a conversion run never changes it (first write wins);
in particular a second run on the same originally mislabeled file keeps the
backup of the first run. -/
theorem C5_backup_first_write_wins (force : Bool) (fs : ConvFS) (c : List Char)
    (fs2 : ConvFS) (r : ConvOutcome)
    (hB : fs.backupFile = some c)
    (hC : convert_plaintext_to_docx force fs = .ok (fs2, r)) :
    fs2.backupFile = some c := by
  unfold convert_plaintext_to_docx at hC
  split at hC
  · simp only [Except.ok.injEq, Prod.mk.injEq] at hC
    rw [← hC.1]; exact hB
  · split at hC
    · simp only [Except.ok.injEq, Prod.mk.injEq] at hC
      rw [← hC.1]; exact hB
    · exact absurd hC (by simp)
    · simp only [Except.ok.injEq, Prod.mk.injEq] at hC
      rw [← hC.1]
      simp [hB]

/-- C5 witness: a concrete second run on a converted file keeps the backup
content `"x"`. -/
theorem C5_witness :
    (⟨true, [0x50, 0x4B, 0, 104, 105, 10], some "x".data⟩ : ConvFS).backupFile =
      some "x".data :=
  C5_backup_first_write_wins true ⟨true, [104, 105], some "x".data⟩ "x".data
    ⟨true, [0x50, 0x4B, 0, 104, 105, 10], some "x".data⟩ .converted rfl (by decide)

/-- C6: a source file whose first two bytes are the ZIP magic `PK` is
classified valid; with the force flag unset the converter leaves the file
system untouched, reports the skip outcome, and returns `False`. -/
theorem C6_valid_docx_skipped (fs : ConvFS)
    (h1 : fs.srcReadable = true) (h2 : fs.srcBytes.take 2 = [0x50, 0x4B]) :
    is_valid_docx fs = true ∧
    convert_plaintext_to_docx false fs = .ok (fs, .skippedValid) ∧
    ConvOutcome.toReturnBool .skippedValid = false := by
  have hv : is_valid_docx fs = true := by simp [is_valid_docx, h1, h2]
  refine ⟨hv, ?_, rfl⟩
  unfold convert_plaintext_to_docx
  simp [hv]

/-- C6 witness at a concrete three-byte file starting with `PK`. -/
theorem C6_witness :
    is_valid_docx ⟨true, [0x50, 0x4B, 9], none⟩ = true ∧
    convert_plaintext_to_docx false ⟨true, [0x50, 0x4B, 9], none⟩ =
      .ok (⟨true, [0x50, 0x4B, 9], none⟩, .skippedValid) ∧
    ConvOutcome.toReturnBool .skippedValid = false :=
  C6_valid_docx_skipped ⟨true, [0x50, 0x4B, 9], none⟩ rfl (by decide)

/-- C7 counterexample: the byte `0xFF` is not valid UTF-8, yet the converter
does not report-and-skip the file: because the read uses
`errors='replace'`, the file is converted (outcome `converted`, the source
bytes are rewritten), contradicting the claim that a non-UTF-8 file is
skipped without converting. -/
theorem C7_counterexample :
    validUtf8 [255] = false ∧
    (convert_plaintext_to_docx false ⟨true, [255], none⟩).map Prod.snd =
      .ok .converted ∧
    (convert_plaintext_to_docx false ⟨true, [255], none⟩).map
        (fun p => p.1.srcBytes) ≠ .ok [255] := by
  refine ⟨by decide, by decide, by decide⟩

/-- C7 amended: `read_text(..., errors='replace')` never raises
`UnicodeDecodeError`, so the decode-error skip branch is unreachable: every
readable source file that is not short-circuited as already valid is
converted, whether or not its bytes are valid UTF-8. -/
theorem C7_replace_decoding_always_converts (force : Bool) (fs : ConvFS)
    (h1 : fs.srcReadable = true)
    (h2 : is_valid_docx fs = false ∨ force = true) :
    (convert_plaintext_to_docx force fs).map Prod.snd = .ok .converted := by
  have hcond : (is_valid_docx fs && !force) = false := by
    rcases h2 with h | h <;> simp [h]
  unfold convert_plaintext_to_docx
  simp [hcond, pyReadTextReplace, h1, Except.map]

/-- C7 witness: the concrete invalid-UTF-8 file `[0xC0]` is converted. -/
theorem C7_witness :
    (convert_plaintext_to_docx false ⟨true, [192], none⟩).map Prod.snd =
      .ok .converted :=
  C7_replace_decoding_always_converts false ⟨true, [192], none⟩ rfl
    (Or.inl (by decide))

/-- C10: `is_valid_docx` catches `OSError` and returns `False`, so an
unreadable source file is not treated as already valid; the conversion
attempt then reads the file, and the resulting `OSError` is not caught by
the `except UnicodeDecodeError` handler: it propagates out of
`convert_plaintext_to_docx`. -/
theorem C10_unreadable_file (force : Bool) (fs : ConvFS)
    (h : fs.srcReadable = false) :
    is_valid_docx fs = false ∧
    convert_plaintext_to_docx force fs = .error .osError := by
  have hv : is_valid_docx fs = false := by simp [is_valid_docx, h]
  refine ⟨hv, ?_⟩
  unfold convert_plaintext_to_docx
  simp [hv, pyReadTextReplace, h]

/-- C10 witness: a concrete unreadable file (even one whose bytes begin with
`PK`) is classified invalid and the run raises `OSError`. -/
theorem C10_witness :
    is_valid_docx ⟨false, [0x50, 0x4B], none⟩ = false ∧
    convert_plaintext_to_docx false ⟨false, [0x50, 0x4B], none⟩ =
      .error .osError :=
  C10_unreadable_file false ⟨false, [0x50, 0x4B], none⟩ rfl

/-! ## Lemmas about `pySplitlines` -/

/-- Unfolding lemma: a non-boundary character is accumulated into the
current line. -/
theorem splitlinesGo_cons_no_break (c : Char) (rest acc : List Char)
    (hc : isLineBreak c = false) :
    splitlinesGo (c :: rest) acc = splitlinesGo rest (c :: acc) := by
  have hcr : c ≠ '\r' := by
    intro h; subst h; simp [isLineBreak] at hc
  rw [splitlinesGo.eq_def]
  split
  · simp_all
  · simp_all
  · rename_i heq
    injection heq with h1 h2
    subst h1; subst h2
    simp [hc]

/-- A prefix without boundary characters followed by a newline produces that
prefix (after the pending accumulator) as the next line. -/
theorem splitlinesGo_prepend_line : ∀ (pre : List Char),
    (∀ c ∈ pre, isLineBreak c = false) → ∀ (post acc : List Char),
    splitlinesGo (pre ++ '\n' :: post) acc =
      (acc.reverse ++ pre) ::
        (if post.isEmpty then [] else splitlinesGo post []) := by
  intro pre
  induction pre with
  | nil =>
    intro _ post acc
    have hbase : splitlinesGo ('\n' :: post) acc =
        acc.reverse :: (if post.isEmpty then [] else splitlinesGo post []) := rfl
    simpa using hbase
  | cons c pre ih =>
    intro h post acc
    have hc : isLineBreak c = false := h c (List.mem_cons_self c pre)
    rw [List.cons_append, splitlinesGo_cons_no_break c _ acc hc,
        ih (fun x hx => h x (List.mem_cons_of_mem c hx)) post (c :: acc)]
    simp

/-- On a non-empty string `pySplitlines` is the worker with an empty
accumulator. -/
theorem pySplitlines_ne_nil (s : List Char) (h : s ≠ []) :
    pySplitlines s = splitlinesGo s [] := by
  cases s with
  | nil => exact absurd rfl h
  | cons c rest => rfl

/-! ## Claim C3 -/

/-- C3 counterexample: for the acquired text `"Hello"` (whose first three
lines do not contain the delimiter), the code does not merely prepend the
delimiter line and a blank line — it also strips the content and appends a
trailing newline, so the result differs from the claimed pure prepend. -/
theorem C3_counterexample :
    normalize_header "PATIENT_001".data "Hello".data ≠
      header_line "PATIENT_001".data ++ '\n' :: '\n' :: "Hello".data := by
  decide

/-- C3 amended: if the exact delimiter line occurs among the first three
lines of the acquired text the content is left unchanged (no duplicate
delimiter); otherwise the delimiter line and a blank line are prepended to
the whitespace-stripped content and a trailing newline is appended; and
the normalisation step is idempotent (for any identifier free of
line-boundary characters, as every discovered `PATIENT_ddd` is). -/
theorem C3_header_normalization (pid content : List Char)
    (hpid : ∀ c ∈ pid, isLineBreak c = false) :
    (header_line pid ∈ (pySplitlines content).take 3 →
        normalize_header pid content = content)
    ∧ (header_line pid ∉ (pySplitlines content).take 3 →
        normalize_header pid content =
          header_line pid ++ '\n' :: '\n' :: (pyStripWs content ++ ['\n']))
    ∧ normalize_header pid (normalize_header pid content) =
        normalize_header pid content := by
  have hconst1 : ∀ c ∈ "====TRANSCRIPT: ".data, isLineBreak c = false := by decide
  have hconst2 : ∀ c ∈ "====".data, isLineBreak c = false := by decide
  have hH : ∀ c ∈ header_line pid, isLineBreak c = false := by
    intro c hc
    rw [header_line] at hc
    rcases List.mem_append.mp hc with hc1 | hc1
    · rcases List.mem_append.mp hc1 with hc2 | hc2
      · exact hconst1 c hc2
      · exact hpid c hc2
    · exact hconst2 c hc1
  refine ⟨fun h => by simp [normalize_header, h],
          fun h => by simp [normalize_header, h], ?_⟩
  by_cases h : header_line pid ∈ (pySplitlines content).take 3
  · simp [normalize_header, h]
  · have h1 : normalize_header pid content =
        header_line pid ++ '\n' :: '\n' :: (pyStripWs content ++ ['\n']) := by
      simp [normalize_header, h]
    rw [h1]
    have hne : header_line pid ++ '\n' :: '\n' :: (pyStripWs content ++ ['\n']) ≠ [] := by
      simp [header_line]
    have hsp : pySplitlines
        (header_line pid ++ '\n' :: '\n' :: (pyStripWs content ++ ['\n'])) =
        header_line pid ::
          (if ('\n' :: (pyStripWs content ++ ['\n'])).isEmpty then []
           else splitlinesGo ('\n' :: (pyStripWs content ++ ['\n'])) []) := by
      rw [pySplitlines_ne_nil _ hne, splitlinesGo_prepend_line (header_line pid) hH]
      simp
    have hmem : header_line pid ∈ (pySplitlines
        (header_line pid ++ '\n' :: '\n' :: (pyStripWs content ++ ['\n']))).take 3 := by
      rw [hsp]
      simp [List.take_succ_cons]
    simp [normalize_header, hmem]

/-- C3 witness: the concrete identifier `PATIENT_001` and content `"x"`;
normalising twice equals normalising once. -/
theorem C3_witness :
    normalize_header "PATIENT_001".data
        (normalize_header "PATIENT_001".data "x".data) =
      normalize_header "PATIENT_001".data "x".data :=
  (C3_header_normalization "PATIENT_001".data "x".data (by decide)).2.2

/-! ## Claim C4 -/

/-- A string fully whitespace is exactly one whose right-strip is empty. -/
theorem pyRstripWs_eq_nil_iff (s : List Char) :
    pyRstripWs s = [] ↔ ∀ c ∈ s, isPySpace c = true := by
  rw [pyRstripWs, List.reverse_eq_nil_iff, List.dropWhile_eq_nil_iff]
  constructor
  · intro h c hc
    exact h c (List.mem_reverse.mpr hc)
  · intro h c hc
    exact h c (List.mem_reverse.mp hc)

/-- A string fully whitespace is exactly one whose two-sided strip is empty. -/
theorem pyStripWs_eq_nil_iff (s : List Char) :
    pyStripWs s = [] ↔ ∀ c ∈ s, isPySpace c = true := by
  rw [pyStripWs, List.dropWhile_eq_nil_iff]
  constructor
  · intro h c hc
    have hc' : c ∈ s.reverse := List.mem_reverse.mpr hc
    rw [← List.takeWhile_append_dropWhile (p := isPySpace) (l := s.reverse)] at hc'
    rcases List.mem_append.mp hc' with h1 | h1
    · exact List.mem_takeWhile_imp h1
    · exact h c (by rw [pyRstripWs]; exact List.mem_reverse.mpr h1)
  · intro h c hc
    rw [pyRstripWs] at hc
    exact h c (List.mem_reverse.mp
      ((List.dropWhile_sublist (p := isPySpace) (l := s.reverse)).subset
        (List.mem_reverse.mp hc)))

/-- C4: during docx extraction each paragraph becomes exactly one output
line; a paragraph whose right-stripped text is empty becomes a blank line;
otherwise the line is wrapped in `'**'` on both sides iff the paragraph
has at least one run with non-whitespace text and every such run has a
true bold flag (paragraphs with no text runs give blank lines, mixed
bold/non-bold paragraphs stay unmarked). -/
theorem C4_extract_lines (paras : List DocxParagraph) :
    (paras.map extractLine).length = paras.length ∧
    ∀ p ∈ paras,
      extractLine p =
        (if pyRstripWs (docxParaText p) = [] then []
         else if (p.runs.any fun r => !(pyStripWs r.runText).isEmpty)
                 && (p.runs.all fun r =>
                       (pyStripWs r.runText).isEmpty || r.runBold.getD false)
           then '*' :: '*' :: (pyRstripWs (docxParaText p) ++ ['*', '*'])
           else pyRstripWs (docxParaText p)) := by
  refine ⟨List.length_map _ _, ?_⟩
  intro p _
  unfold extractLine
  by_cases ht : pyRstripWs (docxParaText p) = []
  · simp [ht]
  · have hex : ∃ r ∈ p.runs, ¬ pyStripWs r.runText = [] := by
      have hnall : ¬ ∀ c ∈ docxParaText p, isPySpace c = true :=
        fun hall => ht ((pyRstripWs_eq_nil_iff _).mpr hall)
      push_neg at hnall
      obtain ⟨c, hc, hcs⟩ := hnall
      rw [docxParaText] at hc
      obtain ⟨l, hl, hcl⟩ := List.mem_flatten.mp hc
      obtain ⟨r, hr, rfl⟩ := List.mem_map.mp hl
      exact ⟨r, hr, fun hnil => hcs ((pyStripWs_eq_nil_iff _).mp hnil c hcl)⟩
    have hne : p.runs ≠ [] := by
      intro h0
      obtain ⟨r, hr, _⟩ := hex
      rw [h0] at hr
      exact absurd hr (List.not_mem_nil r)
    have hany : (p.runs.any fun r => !(pyStripWs r.runText).isEmpty) = true := by
      obtain ⟨r, hr, hrs⟩ := hex
      exact List.any_eq_true.mpr ⟨r, hr, by simp [List.isEmpty_iff, hrs]⟩
    have h1 : (!p.runs.isEmpty) = true := by simp [List.isEmpty_iff, hne]
    simp [ht, h1, hany]

/-- C4 witness: a concrete paragraph with one bold text run and one
whitespace run is wrapped in markers. -/
theorem C4_witness :
    extractLine ⟨[⟨"Hi".data, some true⟩, ⟨" ".data, none⟩]⟩ = "**Hi**".data := by
  have h := (C4_extract_lines [⟨[⟨"Hi".data, some true⟩, ⟨" ".data, none⟩]⟩]).2
    ⟨[⟨"Hi".data, some true⟩, ⟨" ".data, none⟩]⟩ (List.mem_singleton.mpr rfl)
  exact h.trans (by decide)

/-! ## Claim C8 -/

/-- The only exception `acquireContent` can raise is the missing-docx
`RuntimeError`. -/
theorem acquireContent_error_eq (fs : AggFS) (t : List Char × List Char)
    (e : AggErr) (h : acquireContent fs t = .error e) : e = .docxUnavailable := by
  unfold acquireContent extract_text_from_docx at h
  split at h
  · exact absurd h (by simp)
  · split at h
    · exact absurd h (by simp)
    · simp only [Except.error.injEq] at h
      exact h.symm

/-- The only exception `processTranscript` can raise is the missing-docx
`RuntimeError`. -/
theorem processTranscript_error_eq (fs : AggFS) (t : List Char × List Char)
    (e : AggErr) (h : processTranscript fs t = .error e) : e = .docxUnavailable := by
  unfold processTranscript at h
  split at h
  · exact absurd h (by simp)
  · rename_i e1 heq
    simp only [Except.error.injEq] at h
    exact h ▸ acquireContent_error_eq fs t e1 heq

/-- The loop of `build_aggregate` only ever raises the missing-docx
`RuntimeError`. -/
theorem buildEntries_error_eq (fs : AggFS) :
    ∀ (ts : List (List Char × List Char)) (e : AggErr),
    buildEntries fs ts = .error e → e = .docxUnavailable := by
  intro ts
  induction ts with
  | nil => intro e h; simp [buildEntries] at h
  | cons t rest ih =>
    intro e h
    unfold buildEntries at h
    split at h
    · rename_i e1 heq
      simp only [Except.error.injEq] at h
      exact h ▸ processTranscript_error_eq fs t e1 heq
    · split at h
      · rename_i e1 heq
        simp only [Except.error.injEq] at h
        exact ih e (h ▸ heq)
      · exact absurd h (by simp)

/-- If some transcript of the list raises, the whole loop raises. -/
theorem buildEntries_mem_error (fs : AggFS) :
    ∀ (ts : List (List Char × List Char)) (t : List Char × List Char)
      (e : AggErr), t ∈ ts → processTranscript fs t = .error e →
    ∃ e2, buildEntries fs ts = .error e2 := by
  intro ts
  induction ts with
  | nil => intro t e hmem _; exact absurd hmem (List.not_mem_nil t)
  | cons a rest ih =>
    intro t e hmem herr
    rcases List.mem_cons.mp hmem with rfl | hmem2
    · exact ⟨e, by unfold buildEntries; simp [herr]⟩
    · cases hp : processTranscript fs a with
      | error e1 => exact ⟨e1, by unfold buildEntries; simp [hp]⟩
      | ok y =>
        obtain ⟨e2, h2⟩ := ih t e hmem2 herr
        exact ⟨e2, by unfold buildEntries; simp [hp, h2]⟩

/-- C8: a discovered transcript with no usable backup sidecar while the
docx dependency is unavailable makes `build_aggregate` raise the
missing-capability `RuntimeError`: the failure is not swallowed and no
further fallback exists, so no aggregate is produced. -/
theorem C8_missing_capability_raises (fs : AggFS) (pid name : List Char)
    (hmem : (pid, name) ∈ iter_transcript_paths fs.listing)
    (hback : read_from_backup (fs.backupFiles (withOrigSuffix name)) = none)
    (hdoc : fs.docAvailable = false) :
    build_aggregate fs = .error .docxUnavailable := by
  have herr : processTranscript fs (pid, name) = .error .docxUnavailable := by
    unfold processTranscript acquireContent extract_text_from_docx
    simp [hback, hdoc]
  have hne : ¬ (iter_transcript_paths fs.listing).isEmpty = true := by
    intro h
    rw [List.isEmpty_iff] at h
    rw [h] at hmem
    exact absurd hmem (List.not_mem_nil _)
  unfold build_aggregate
  rw [if_neg hne]
  obtain ⟨e2, h2⟩ := buildEntries_mem_error fs _ (pid, name) _ hmem herr
  exact (buildEntries_error_eq fs _ e2 h2) ▸ h2

/-- C8 witness: one discovered transcript, no backup sidecar, docx
dependency unavailable. -/
theorem C8_witness :
    build_aggregate
      ⟨["transcript_PATIENT_001.docx".data], fun _ => none, fun _ => [], false⟩ =
      .error .docxUnavailable :=
  C8_missing_capability_raises
    ⟨["transcript_PATIENT_001.docx".data], fun _ => none, fun _ => [], false⟩
    "PATIENT_001".data "transcript_PATIENT_001.docx".data (by decide) rfl rfl

/-! ## Claim C1 -/

/-- A successful `processTranscript` keeps the transcript's identifier. -/
theorem processTranscript_ok_fst (fs : AggFS) (t : List Char × List Char)
    (y : List Char × List Char) (h : processTranscript fs t = .ok y) :
    y.1 = t.1 := by
  unfold processTranscript at h
  split at h
  · simp only [Except.ok.injEq] at h
    rw [← h]
  · exact absurd h (by simp)


/-- A successful loop produces entries whose identifiers are those of the
discovered transcripts, in the same order. -/
theorem buildEntries_ok_fst (fs : AggFS) :
    ∀ (ts out : List (List Char × List Char)), buildEntries fs ts = .ok out →
    out.map Prod.fst = ts.map Prod.fst := by
  intro ts
  induction ts with
  | nil =>
    intro out h
    simp only [buildEntries, Except.ok.injEq] at h
    rw [← h]
  | cons t rest ih =>
    intro out h
    unfold buildEntries at h
    split at h
    · exact absurd h (by simp)
    · rename_i y heq1
      split at h
      · exact absurd h (by simp)
      · rename_i ys heq2
        simp only [Except.ok.injEq] at h
        rw [← h]
        simp only [List.map_cons]
        rw [processTranscript_ok_fst fs t y heq1, ih ys heq2]

/-- C1: in a successful aggregate the transcript blocks appear in strictly
ascending order of the numeric value of their identifiers: whenever entry
`i` has a numerically smaller identifier than entry `j`, entry `i` is
placed strictly before entry `j` (the aggregate text is the concatenation
of the entries in this list order, see `aggregate_output`). -/
theorem C1_blocks_sorted (fs : AggFS) (out : List (List Char × List Char))
    (hok : build_aggregate fs = .ok out)
    (i j : Nat) (hi : i < out.length) (hj : j < out.length)
    (hlt : pidNum (out.get ⟨i, hi⟩).1 < pidNum (out.get ⟨j, hj⟩).1) :
    i < j := by
  unfold build_aggregate at hok
  split at hok
  · exact absurd hok (by simp)
  · have hfst := buildEntries_ok_fst fs _ out hok
    have hpw : (iter_transcript_paths fs.listing).Pairwise transcriptLE :=
      List.sorted_insertionSort transcriptLE (rawTranscriptFiles fs.listing)
    have hpw2 : (out.map Prod.fst).Pairwise (fun a b => pidNum a ≤ pidNum b) := by
      rw [hfst]
      exact hpw.map Prod.fst (fun a b hab => hab)
    by_contra hij
    push_neg at hij
    rcases Nat.eq_or_lt_of_le hij with heq | hji
    · subst heq
      exact absurd hlt (Nat.lt_irrefl _)
    · have hij2 := List.pairwise_iff_getElem.mp hpw2 j i
        (by simpa using hj) (by simpa using hi) hji
      rw [List.getElem_map, List.getElem_map] at hij2
      exact absurd hlt (Nat.not_lt.mpr hij2)

/-- C1 witness: two transcripts discovered out of order are emitted in
ascending numeric order; applying the theorem at indices 0 and 1 of the
result. -/
theorem C1_witness : 0 < 1 :=
  C1_blocks_sorted
    ⟨["transcript_PATIENT_010.docx".data, "transcript_PATIENT_002.docx".data],
      fun _ => some (Except.ok "Hi".data), fun _ => [], true⟩
    [("PATIENT_002".data,
        "====TRANSCRIPT: PATIENT_002====\n\nHi\n".data),
     ("PATIENT_010".data,
        "====TRANSCRIPT: PATIENT_010====\n\nHi\n".data)]
    (by decide) 0 1 (by decide) (by decide) (by decide)

/-! ## Claim C9 -/

/-- Processing one transcript does not look at the directory listing. -/
theorem processTranscript_congr (fs g : AggFS)
    (hb : fs.backupFiles = g.backupFiles)
    (hd : fs.docxFiles = g.docxFiles)
    (ha : fs.docAvailable = g.docAvailable)
    (t : List Char × List Char) :
    processTranscript fs t = processTranscript g t := by
  unfold processTranscript acquireContent extract_text_from_docx
  rw [hb, hd, ha]

/-- The aggregation loop does not look at the directory listing. -/
theorem buildEntries_congr (fs g : AggFS)
    (hb : fs.backupFiles = g.backupFiles)
    (hd : fs.docxFiles = g.docxFiles)
    (ha : fs.docAvailable = g.docAvailable) :
    ∀ (ts : List (List Char × List Char)), buildEntries fs ts = buildEntries g ts := by
  intro ts
  induction ts with
  | nil => rfl
  | cons t rest ih =>
    unfold buildEntries
    rw [processTranscript_congr fs g hb hd ha t, ih]

/-- C9: a file matched by the glob `transcript_PATIENT_*.docx` whose name
fails the fixed-width regex (identifier `PATIENT_` + exactly three Unicode
decimal digits) is silently excluded: removing it from the listing changes neither the
entry list (so it contributes no block and no error) nor the full output
text with its footer (so it is not counted in the total). -/
theorem C9_nonmatching_name_excluded (fs : AggFS) (name : List Char)
    (pre post : List (List Char))
    (hsplit : fs.listing = pre ++ name :: post)
    (hglob : globMatch name = true)
    (hregex : regexExtract name = none) :
    build_aggregate fs =
      build_aggregate { fs with listing := pre ++ post } ∧
    ∀ now : List Char, aggregate_output fs now =
      aggregate_output { fs with listing := pre ++ post } now := by
  have hraw : rawTranscriptFiles (pre ++ name :: post) =
      rawTranscriptFiles (pre ++ post) := by
    unfold rawTranscriptFiles
    rw [List.filter_append, List.filter_append, List.filter_cons]
    simp [hglob, List.filterMap_append, List.filterMap_cons, hregex]
  have hiter : iter_transcript_paths fs.listing =
      iter_transcript_paths (pre ++ post) := by
    unfold iter_transcript_paths
    rw [hsplit, hraw]
  have hBE : ∀ ts, buildEntries fs ts =
      buildEntries { fs with listing := pre ++ post } ts :=
    buildEntries_congr fs { fs with listing := pre ++ post } rfl rfl rfl
  have hb : build_aggregate fs =
      build_aggregate { fs with listing := pre ++ post } := by
    unfold build_aggregate
    rw [hiter, hBE]
  exact ⟨hb, fun now => by unfold aggregate_output; rw [hb]⟩

/-- C9 witness: the four-digit name `transcript_PATIENT_0001.docx` is glob
matched but regex rejected; dropping it leaves the aggregate unchanged. -/
theorem C9_witness :
    build_aggregate
      ⟨["transcript_PATIENT_0001.docx".data, "transcript_PATIENT_001.docx".data],
        fun _ => none, fun _ => [], true⟩ =
    build_aggregate
      ⟨["transcript_PATIENT_001.docx".data], fun _ => none, fun _ => [], true⟩ :=
  (C9_nonmatching_name_excluded
    ⟨["transcript_PATIENT_0001.docx".data, "transcript_PATIENT_001.docx".data],
      fun _ => none, fun _ => [], true⟩
    "transcript_PATIENT_0001.docx".data []
    ["transcript_PATIENT_001.docx".data] rfl (by decide) (by decide)).1
